import Mathlib

/-!
Shallow embedding of the IKB sports-search plugin
(`src/plugins/ikb/index.ts`) and verification of its specification.

Conventions of the embedding:
* JS strings are Lean `String`s (code points instead of UTF-16 units; the
  claims only involve ASCII text, where the two coincide).
* The JS `number` values this module consumes and prints are embedded as
  `Int`: every field the formatters print is printed with JS semantics
  that agree with `Int.toString` on integral values, and `toFixed(1)` on
  an integral value `n` prints `"n.0"`.
* A JS `Date` is represented by its ISO-8601 UTC string (the exact string
  `toISOString()` would produce), so `toISOString().split('T')[0]` becomes
  taking the part of that string before the first `'T'`.
* The possibly-missing `fantasyPoints` value is `Option Int`; the JS
  coercion `p.fantasyPoints || 0` becomes `Option.getD · 0`.
* Effects of the action handler (HTTP fetch, memory store, locale
  rendering, result list formatting) are supplied by an explicit
  environment record, and the handler returns a trace recording which
  collaborators were contacted and with what arguments.
-/

/-- `IKBPlayerStats` from the source (per-player line of one game). -/
structure IKBPlayerStats where
  name : String
  position : String
  played : Bool
  started : Int
  minutes : Int
  seconds : Int
  points : Int
  rebounds : Int
  assists : Int
  steals : Int
  blockedShots : Int
  fieldGoalsMade : Int
  fieldGoalsAttempted : Int
  threePointersMade : Int
  threePointersAttempted : Int
  freeThrowsMade : Int
  freeThrowsAttempted : Int
  fantasyPoints : Option Int
  deriving Repr, DecidableEq

/-- `IKBTeamStats` from the source (per-team aggregate of one game). -/
structure IKBTeamStats where
  name : String
  abbreviation : String
  score : Int
  fieldGoalsPercentage : Int
  threePointersPercentage : Int
  rebounds : Int
  assists : Int
  steals : Int
  blockedShots : Int
  turnovers : Int
  deriving Repr, DecidableEq

/-- One entry of the `quarters` array of a game. -/
structure IKBQuarter where
  number : Int
  awayScore : Int
  homeScore : Int
  deriving Repr, DecidableEq

/-- The `game` sub-object of `IKBGameData`. -/
structure IKBGame where
  season : Int
  status : String
  dateTime : String
  awayTeam : String
  homeTeam : String
  awayTeamScore : Int
  homeTeamScore : Int
  stadium : String
  quarters : List IKBQuarter
  deriving Repr, DecidableEq

/-- `IKBGameData` from the source: one game record with embedded stats. -/
structure IKBGameData where
  game : IKBGame
  teams : List IKBTeamStats
  players : List IKBPlayerStats
  deriving Repr, DecidableEq

/-- The `metadata` sub-object of the API response. -/
structure IKBMetadata where
  count : Int
  deriving Repr, DecidableEq

/-- `IKBSearchResponse` from the source: the parsed API response body. -/
structure IKBSearchResponse where
  data : List IKBGameData
  metadata : IKBMetadata
  deriving Repr, DecidableEq

/-- Models JS `x.toFixed(1)` on an integral value. -/
def toFixed1 (n : Int) : String := toString n ++ ".0"

/-- Models JS `s.padStart(2, '0')`. -/
def padStart2 (s : String) : String :=
  if s.length < 2 then String.mk (List.replicate (2 - s.length) '0') ++ s else s

/-- The body of `game.quarters.map(...)` in `formatGameSummary`. -/
def formatQuarter (q : IKBQuarter) : String :=
  "Q" ++ toString q.number ++ ": " ++ toString q.awayScore ++ "-" ++ toString q.homeScore

/-- `formatGameSummary` from the source. `localize` stands for the
environment-dependent `s => new Date(s).toLocaleDateString()`. -/
def formatGameSummary (localize : String → String) (data : IKBGameData) : String :=
  let game := data.game
  let quarters := String.intercalate ", " (game.quarters.map formatQuarter)
  game.awayTeam ++ " " ++ toString game.awayTeamScore ++ " @ " ++
    game.homeTeam ++ " " ++ toString game.homeTeamScore ++ "\n" ++
  "Date: " ++ localize game.dateTime ++ "\n" ++
  "Quarter Scores: " ++ quarters ++ "\n" ++
  "Status: " ++ game.status ++ "\n" ++
  "Stadium: " ++ game.stadium

/-- The body of `data.teams.map(...)` in `formatTeamStats`. -/
def formatTeam (team : IKBTeamStats) : String :=
  team.name ++ " (" ++ team.abbreviation ++ ")\n" ++
  "Score: " ++ toString team.score ++ "\n" ++
  "FG%: " ++ toFixed1 team.fieldGoalsPercentage ++ "%, 3P%: " ++
    toFixed1 team.threePointersPercentage ++ "%\n" ++
  "Rebounds: " ++ toString team.rebounds ++ ", Assists: " ++ toString team.assists ++ "\n" ++
  "Steals: " ++ toString team.steals ++ ", Blocks: " ++ toString team.blockedShots

/-- `formatTeamStats` from the source. -/
def formatTeamStats (data : IKBGameData) : String :=
  String.intercalate "\n\n" (data.teams.map formatTeam)

/-- The sort key of `formatPlayerStats`: `p.fantasyPoints || 0`. -/
def fpKey (p : IKBPlayerStats) : Int := p.fantasyPoints.getD 0

/-- The `.sort((a, b) => (b.fantasyPoints || 0) - (a.fantasyPoints || 0))`
step: a stable sort by descending fantasy-points key (JS `Array.sort` with
a consistent comparator is stable), embedded as a stable insertion sort. -/
def sortByFantasyDesc (ps : List IKBPlayerStats) : List IKBPlayerStats :=
  List.insertionSort (fun a b => fpKey b ≤ fpKey a) ps

/-- The body of `.map(player => ...)` in `formatPlayerStats`. -/
def formatPlayer (player : IKBPlayerStats) : String :=
  let minutes := toString player.minutes ++ ":" ++ padStart2 (toString player.seconds)
  let shooting := toString player.fieldGoalsMade ++ "/" ++
    toString player.fieldGoalsAttempted ++ " FG, " ++
    toString player.threePointersMade ++ "/" ++
    toString player.threePointersAttempted ++ " 3P"
  player.name ++ " (" ++ player.position ++ ") - " ++ minutes ++ " min\n" ++
  toString player.points ++ " PTS, " ++ toString player.rebounds ++ " REB, " ++
    toString player.assists ++ " AST\n" ++
  shooting

/-- `formatPlayerStats` from the source: filter to participants, stable
sort descending by fantasy points, keep the first 10, render blocks
joined by a blank line. -/
def formatPlayerStats (data : IKBGameData) : String :=
  String.intercalate "\n\n"
    (((sortByFantasyDesc (data.players.filter (fun p => p.played))).take 10).map formatPlayer)

/-- Models JS `toLowerCase` on the ASCII range (the only range the
keyword tests can match), one character at a time. -/
def strToLower (s : String) : String := String.mk (s.data.map Char.toLower)

/-- Models JS `toUpperCase` on the ASCII range, one character at a time. -/
def strToUpper (s : String) : String := String.mk (s.data.map Char.toUpper)

/-- `formatDate` from the source: `date.toISOString().split('T')[0]` is
the prefix of the ISO string before its first `'T'` (the whole string
when no `'T'` occurs), with the `Date` represented by its ISO-8601 UTC
string. -/
def formatDate (isoDateTime : String) : String :=
  String.mk (isoDateTime.data.takeWhile (fun c => c != 'T'))

/-- The test of the regex `/\d{4}-\d{2}-\d{2}/` at the start of a
character list (JS `\d` is exactly the ASCII digits). -/
def matchesDatePattern : List Char → Bool
  | y1 :: y2 :: y3 :: y4 :: s1 :: m1 :: m2 :: s2 :: d1 :: d2 :: _ =>
    y1.isDigit && y2.isDigit && y3.isDigit && y4.isDigit && s1 == '-' &&
    m1.isDigit && m2.isDigit && s2 == '-' && d1.isDigit && d2.isDigit
  | _ => false

/-- Leftmost match of the date regex, as `query.match(...)` computes it:
try the pattern at each position from the left, return the first match. -/
def findDateMatch : List Char → Option (List Char)
  | [] => none
  | c :: rest =>
    if matchesDatePattern (c :: rest) then some ((c :: rest).take 10)
    else findDateMatch rest

/-- `extractDateFromQuery` from the source. `nowIso` is the ISO-8601 UTC
string of the current instant (`new Date().toISOString()`). -/
def extractDateFromQuery (nowIso : String) (query : String) : String :=
  match findDateMatch query.data with
  | some cs => String.mk cs
  | none => formatDate nowIso

/-- Boolean test that `pat` begins the list `s`. -/
def listPrefixEq : List Char → List Char → Bool
  | [], _ => true
  | _ :: _, [] => false
  | a :: as, b :: bs => a == b && listPrefixEq as bs

/-- Boolean substring containment on character lists. -/
def containsSub : List Char → List Char → Bool
  | [], sub => sub.isEmpty
  | c :: rest, sub => listPrefixEq sub (c :: rest) || containsSub rest sub

/-- Models JS `s.includes(sub)`. -/
def strIncludes (s sub : String) : Bool := containsSub s.data sub.data

/-- `extractSportFromQuery` from the source. (JS `toLowerCase` agrees
with ASCII lowercasing on the text the keyword tests can match.) -/
def extractSportFromQuery (query : String) : String :=
  let lowerQuery := strToLower query
  if strIncludes lowerQuery "nfl" || strIncludes lowerQuery "football" then "nfl"
  else if strIncludes lowerQuery "nba" || strIncludes lowerQuery "basketball" then "nba"
  else "nba"

/-- The three recognized `searchType` values of the configuration. -/
inductive SearchType where
  | game
  | teams
  | players
  deriving Repr, DecidableEq

/-- The `filters` option of `IKBPluginConfig`. -/
structure IKBFilters where
  sport : String
  date : String
  deriving Repr, DecidableEq

/-- `IKBPluginConfig` from the source (optional fields as `Option`). -/
structure IKBPluginConfig where
  apiKey : String
  maxResults : Option Int
  searchType : Option SearchType
  filters : Option IKBFilters
  deriving Repr, DecidableEq

/-- The constructor's `{ ...DEFAULT_CONFIG, ...config }` merge:
`DEFAULT_CONFIG` supplies `maxResults = 5` and `searchType = game` for
fields the caller left absent. -/
def mergeConfig (config : IKBPluginConfig) : IKBPluginConfig :=
  { config with
    maxResults := some (config.maxResults.getD 5)
    searchType := some (config.searchType.getD SearchType.game) }

/-- One `SearchResult` as the handler builds it (the `metadata` object is
flattened into three fields). -/
structure SearchResult where
  title : String
  url : String
  snippet : String
  score : Int
  source : String
  metadataSport : String
  metadataDate : String
  metadataDataType : Option SearchType
  deriving Repr, DecidableEq

/-- The `{ success, response }` value the action handler returns. -/
structure HandlerResult where
  success : Bool
  response : String
  deriving Repr, DecidableEq

/-- Trace of the handler's interaction with its collaborators:
which arguments the HTTP fetch was called with (`none` = no request),
whether the memory store was contacted, and the result list built. -/
structure HandlerTrace where
  fetchArgs : Option (String × String) := none
  memoryCalled : Bool := false
  builtResults : List SearchResult := []
  deriving Repr, DecidableEq

/-- The handler's external collaborators: rate-limiter verdict, HTTP
fetch, memory store, locale date rendering, and `formatSearchResults`. -/
structure IKBEnv where
  rateLimitOk : Bool
  fetch : String → String → Except String IKBSearchResponse
  memorize : String → String → List IKBGameData → Except String Unit
  localize : String → String
  formatResults : List SearchResult → String

/-- Whitespace trimming used by the spec-modelled query validator
(JS `String.prototype.trim` on the common whitespace characters). -/
def strTrim (s : String) : String :=
  String.mk (((s.data.dropWhile Char.isWhitespace).reverse.dropWhile Char.isWhitespace).reverse)

/-- Modelled from the spec: `validateSearchQuery` lives in
`src/common/utils.ts`, which is absent from the sources. Per the spec,
the query validator returns the cleaned query string and fails with a
`ValidationError` on empty/malformed input. -/
def validateSearchQuery (text : String) : Except String String :=
  if strTrim text = "" then Except.error "ValidationError: empty query"
  else Except.ok (strTrim text)

/-- Modelled from the spec: `handleApiError` lives in
`src/common/utils.ts`, which is absent from the sources. Per the spec,
the error formatter maps any thrown error into a
`{ success : false, response : message }` shape. -/
def handleApiError (message : String) : HandlerResult :=
  { success := false, response := message }

/-- The action's `validate` callback: run `validateSearchQuery` on the
message text, return `true` on success and `false` on a caught error. -/
def validateAction (messageText : String) : Bool :=
  match validateSearchQuery messageText with
  | Except.ok _ => true
  | Except.error _ => false

/-- The action's `handler` callback. Sequential effects are resolved
against `env`; every error value flows to `handleApiError`, mirroring the
single `try/catch` around the handler body. `nowIso` is the ISO-8601 UTC
string of the current instant. The `match` on `data.data` embeds the
`data.data.length > 0` guard together with the `data.data[0]` access. -/
def handler (config : IKBPluginConfig) (env : IKBEnv) (nowIso : String)
    (messageText : String) : HandlerResult × HandlerTrace :=
  if env.rateLimitOk = false then
    ({ success := false, response := "Rate limit exceeded. Please try again later." }, {})
  else
    match validateSearchQuery messageText with
    | Except.error e => (handleApiError e, {})
    | Except.ok query =>
      let date := extractDateFromQuery nowIso query
      let sport := extractSportFromQuery query
      match env.fetch sport date with
      | Except.error e => (handleApiError e, { fetchArgs := some (sport, date) })
      | Except.ok data =>
        match env.memorize sport date data.data with
        | Except.error e =>
            (handleApiError e, { fetchArgs := some (sport, date), memoryCalled := true })
        | Except.ok _ =>
          let formattedContent :=
            match data.data with
            | [] => ""
            | gameData :: _ =>
              match config.searchType with
              | some SearchType.game => formatGameSummary env.localize gameData
              | some SearchType.teams => formatTeamStats gameData
              | some SearchType.players => formatPlayerStats gameData
              | none => formatGameSummary env.localize gameData
          let results : List SearchResult :=
            [{ title := strToUpper sport ++ " Stats for " ++ date,
               url := "https://api.ikb.gg/ai/" ++ sport ++ "/" ++ date,
               snippet := formattedContent,
               score := 1,
               source := "ikb",
               metadataSport := sport,
               metadataDate := date,
               metadataDataType := config.searchType }]
          ({ success := true, response := env.formatResults results },
           { fetchArgs := some (sport, date), memoryCalled := true, builtResults := results })

/-! ## Specification-side predicates for the Query Interpreter -/

/-- Spec-side reading of the `YYYY-MM-DD` pattern: a ten-character
sequence of four digits, a dash, two digits, a dash, two digits. -/
def IsDatePattern (cs : List Char) : Prop :=
  ∃ y1 y2 y3 y4 m1 m2 d1 d2 : Char,
    cs = [y1, y2, y3, y4, '-', m1, m2, '-', d1, d2] ∧
    y1.isDigit = true ∧ y2.isDigit = true ∧ y3.isDigit = true ∧ y4.isDigit = true ∧
    m1.isDigit = true ∧ m2.isDigit = true ∧ d1.isDigit = true ∧ d2.isDigit = true

/-- Spec-side containment: the keyword occurs as a contiguous substring. -/
def OccursIn (kw s : String) : Prop :=
  ∃ i, (s.data.drop i).take kw.data.length = kw.data

/-! ## Concrete objects used by witnesses and counterexamples -/

/-- A player block with no fantasy-points value. -/
def pMissing : IKBPlayerStats :=
  { name := "Bob", position := "F", played := true, started := 0, minutes := 12, seconds := 3,
    points := 4, rebounds := 5, assists := 6, steals := 0, blockedShots := 0,
    fieldGoalsMade := 2, fieldGoalsAttempted := 7, threePointersMade := 0,
    threePointersAttempted := 1, freeThrowsMade := 0, freeThrowsAttempted := 0,
    fantasyPoints := none }

/-- A player block with 30 fantasy points. -/
def pHigh : IKBPlayerStats :=
  { pMissing with name := "Alice", position := "G", fantasyPoints := some 30 }

/-- A fixed game header for concrete records. -/
def gameStub : IKBGame :=
  { season := 2024, status := "Final", dateTime := "2024-12-15T00:00:00Z",
    awayTeam := "AAA", homeTeam := "BBB", awayTeamScore := 100, homeTeamScore := 98,
    stadium := "Arena", quarters := [⟨1, 20, 18⟩, ⟨2, 15, 20⟩] }

/-- A record whose players are `pMissing` then `pHigh`, in that order. -/
def gTwoPlayers : IKBGameData :=
  { game := gameStub, teams := [], players := [pMissing, pHigh] }

/-- A record with empty teams, players and quarters arrays. -/
def gEmptyLists : IKBGameData :=
  { game := { gameStub with quarters := [] }, teams := [], players := [] }

/-- A collaborator environment that allows the call, fetches an empty
data array, and stores successfully. -/
def envAllow : IKBEnv :=
  { rateLimitOk := true,
    fetch := fun _ _ => Except.ok { data := [], metadata := { count := 0 } },
    memorize := fun _ _ _ => Except.ok (),
    localize := fun s => s,
    formatResults := fun _ => "" }

/-- `envAllow` with the rate limiter denying the call. -/
def envDeny : IKBEnv := { envAllow with rateLimitOk := false }

/-- `envAllow` with a failing HTTP fetch. -/
def envFetchFail : IKBEnv := { envAllow with fetch := fun _ _ => Except.error "boom" }

/-- `envAllow` with a failing memory-store write. -/
def envMemFail : IKBEnv :=
  { envAllow with memorize := fun _ _ _ => Except.error "store down" }

/-- A plain configuration with the `game` view selected. -/
def cfgGame : IKBPluginConfig :=
  { apiKey := "k", maxResults := some 5, searchType := some SearchType.game, filters := none }

/-- `cfgGame` with `filters` configured to `nfl` on `2024-01-01`. -/
def cfgFiltersNfl : IKBPluginConfig :=
  { cfgGame with filters := some { sport := "nfl", date := "2024-01-01" } }

theorem matchesDatePattern_iff :
    ∀ l : List Char, matchesDatePattern l = true ↔ IsDatePattern (l.take 10)
  | [] => by simp [matchesDatePattern, IsDatePattern]
  | [a] => by simp [matchesDatePattern, IsDatePattern]
  | [a, b] => by simp [matchesDatePattern, IsDatePattern]
  | [a, b, c] => by simp [matchesDatePattern, IsDatePattern]
  | [a, b, c, d] => by simp [matchesDatePattern, IsDatePattern]
  | [a, b, c, d, e] => by simp [matchesDatePattern, IsDatePattern]
  | [a, b, c, d, e, f] => by simp [matchesDatePattern, IsDatePattern]
  | [a, b, c, d, e, f, g] => by simp [matchesDatePattern, IsDatePattern]
  | [a, b, c, d, e, f, g, h] => by simp [matchesDatePattern, IsDatePattern]
  | [a, b, c, d, e, f, g, h, i] => by simp [matchesDatePattern, IsDatePattern]
  | y1 :: y2 :: y3 :: y4 :: s1 :: m1 :: m2 :: s2 :: d1 :: d2 :: rest => by
    constructor
    · intro hm
      simp only [matchesDatePattern, Bool.and_eq_true, beq_iff_eq] at hm
      obtain ⟨⟨⟨⟨⟨⟨⟨⟨⟨h1, h2⟩, h3⟩, h4⟩, h5⟩, h6⟩, h7⟩, h8⟩, h9⟩, h10⟩ := hm
      subst h5; subst h8
      exact ⟨y1, y2, y3, y4, m1, m2, d1, d2, by simp [List.take], h1, h2, h3, h4, h6, h7, h9, h10⟩
    · rintro ⟨a1, a2, a3, a4, b1, b2, c1, c2, heq, hd⟩
      simp only [List.take] at heq
      injection heq with e1 heq; injection heq with e2 heq; injection heq with e3 heq
      injection heq with e4 heq; injection heq with e5 heq; injection heq with e6 heq
      injection heq with e7 heq; injection heq with e8 heq; injection heq with e9 heq
      injection heq with e10 heq
      subst e10; subst e1; subst e2; subst e3; subst e4; subst e5; subst e6
      subst e7; subst e8; subst e9
      obtain ⟨g1, g2, g3, g4, g5, g6, g7, g8⟩ := hd
      simp [matchesDatePattern, g1, g2, g3, g4, g5, g6, g7, g8]

theorem findDateMatch_at (l : List Char) :
    ∀ i, matchesDatePattern (l.drop i) = true →
      (∀ j, j < i → matchesDatePattern (l.drop j) = false) →
      findDateMatch l = some ((l.drop i).take 10) := by
  induction l with
  | nil =>
    intro i h _
    simp [matchesDatePattern] at h
  | cons c rest ih =>
    intro i h hprev
    cases i with
    | zero =>
      simp only [List.drop_zero] at h ⊢
      simp [findDateMatch, h]
    | succ i0 =>
      have h0 : matchesDatePattern (c :: rest) = false := by
        simpa using hprev 0 (Nat.succ_pos _)
      have hstep : findDateMatch (c :: rest) = findDateMatch rest := by
        simp [findDateMatch, h0]
      rw [hstep, List.drop_succ_cons]
      exact ih i0 (by simpa using h)
        (fun j hj => by simpa using hprev (j + 1) (Nat.succ_lt_succ hj))

theorem findDateMatch_none (l : List Char) :
    (∀ j, matchesDatePattern (l.drop j) = false) → findDateMatch l = none := by
  induction l with
  | nil => intro _; rfl
  | cons c rest ih =>
    intro h
    have h0 : matchesDatePattern (c :: rest) = false := by simpa using h 0
    simp only [findDateMatch, h0, Bool.false_eq_true, if_false]
    exact ih (fun j => by simpa using h (j + 1))

/-- C1: For every query string, date extraction returns the first
(leftmost) substring matching the `YYYY-MM-DD` pattern verbatim, with no
calendar validity check (the invalid `2024-13-40` passes through, third
conjunct); if no such substring exists, it returns the current date part
of the UTC ISO timestamp, i.e. `formatDate nowIso`. -/
theorem extractDateFromQuery_spec (nowIso query : String) :
    (∀ i, IsDatePattern ((query.data.drop i).take 10) →
      (∀ j, j < i → ¬ IsDatePattern ((query.data.drop j).take 10)) →
      extractDateFromQuery nowIso query = String.mk ((query.data.drop i).take 10)) ∧
    ((∀ j, ¬ IsDatePattern ((query.data.drop j).take 10)) →
      extractDateFromQuery nowIso query = formatDate nowIso) ∧
    extractDateFromQuery nowIso "score on 2024-13-40 please" = "2024-13-40" := by
  refine ⟨?_, ?_, ?_⟩
  · intro i hi hprev
    have h1 : matchesDatePattern (query.data.drop i) = true :=
      (matchesDatePattern_iff _).mpr hi
    have h2 : ∀ j, j < i → matchesDatePattern (query.data.drop j) = false := by
      intro j hj
      have hn := hprev j hj
      rw [← matchesDatePattern_iff] at hn
      exact Bool.not_eq_true _ ▸ eq_false_of_ne_true hn
    unfold extractDateFromQuery
    rw [findDateMatch_at query.data i h1 h2]
  · intro hnone
    have h2 : ∀ j, matchesDatePattern (query.data.drop j) = false := by
      intro j
      have hn := hnone j
      rw [← matchesDatePattern_iff] at hn
      exact Bool.not_eq_true _ ▸ eq_false_of_ne_true hn
    unfold extractDateFromQuery
    rw [findDateMatch_none query.data h2]
  · have h : findDateMatch "score on 2024-13-40 please".data =
        some ['2', '0', '2', '4', '-', '1', '3', '-', '4', '0'] := by decide
    unfold extractDateFromQuery
    rw [h]

/-- Witness for C1 at a concrete query: the date `2024-12-25` appears at
index 9 of the query and nowhere earlier. -/
theorem extractDateFromQuery_spec_witness :
    extractDateFromQuery "2025-06-07T12:00:00.000Z" "games on 2024-12-25 today" = "2024-12-25" := by
  have h := (extractDateFromQuery_spec "2025-06-07T12:00:00.000Z" "games on 2024-12-25 today").1
    9
    ⟨'2', '0', '2', '4', '1', '2', '2', '5', by decide, by decide, by decide, by decide,
      by decide, by decide, by decide, by decide, by decide⟩
    (by
      intro j hj
      rw [← matchesDatePattern_iff]
      interval_cases j <;> decide)
  rw [h]
  decide

/-! ## Specification-side containment for the sport extractor -/

theorem listPrefixEq_iff :
    ∀ pat s : List Char, listPrefixEq pat s = true ↔ s.take pat.length = pat
  | [], s => by simp [listPrefixEq]
  | a :: as, [] => by simp [listPrefixEq]
  | a :: as, b :: bs => by
    simp only [listPrefixEq, Bool.and_eq_true, beq_iff_eq, List.length_cons,
      List.take_succ_cons, List.cons.injEq, listPrefixEq_iff as bs]
    constructor
    · rintro ⟨h1, h2⟩; exact ⟨h1.symm, h2⟩
    · rintro ⟨h1, h2⟩; exact ⟨h1.symm, h2⟩

theorem containsSub_iff :
    ∀ s sub : List Char, containsSub s sub = true ↔ ∃ i, (s.drop i).take sub.length = sub
  | [], sub => by cases sub <;> simp [containsSub]
  | c :: rest, sub => by
    simp only [containsSub, Bool.or_eq_true, listPrefixEq_iff, containsSub_iff rest sub]
    constructor
    · rintro (h | ⟨i, h⟩)
      · exact ⟨0, by simpa using h⟩
      · exact ⟨i + 1, by simpa using h⟩
    · rintro ⟨i, h⟩
      cases i with
      | zero => exact Or.inl (by simpa using h)
      | succ i0 => exact Or.inr ⟨i0, by simpa using h⟩

theorem strIncludes_iff (s sub : String) :
    strIncludes s sub = true ↔ OccursIn sub s := by
  unfold strIncludes OccursIn
  exact containsSub_iff s.data sub.data

/-- C2: Sport extraction is a case-insensitive substring match: a query
containing `nfl` or `football` (after lowercasing) yields `nfl`; one
containing no keyword of that set yields `nba` (both when the `nba` set
occurs and by default); the result is always one of the two; and on a
query with keywords of both sets, `nfl` wins. -/
theorem extractSportFromQuery_spec (query : String) :
    ((OccursIn "nfl" (strToLower query) ∨ OccursIn "football" (strToLower query)) →
      extractSportFromQuery query = "nfl") ∧
    (¬ OccursIn "nfl" (strToLower query) → ¬ OccursIn "football" (strToLower query) →
      extractSportFromQuery query = "nba") ∧
    (extractSportFromQuery query = "nfl" ∨ extractSportFromQuery query = "nba") ∧
    extractSportFromQuery "NFL and NBA tonight" = "nfl" := by
  refine ⟨?_, ?_, ?_, ?_⟩
  · intro h
    have hb : (strIncludes (strToLower query) "nfl" || strIncludes (strToLower query) "football") = true := by
      rcases h with h | h
      · exact Bool.or_eq_true _ _ ▸ Or.inl ((strIncludes_iff _ _).mpr h)
      · exact Bool.or_eq_true _ _ ▸ Or.inr ((strIncludes_iff _ _).mpr h)
    simp [extractSportFromQuery, hb]
  · intro h1 h2
    have hb : (strIncludes (strToLower query) "nfl" || strIncludes (strToLower query) "football") = false := by
      have e1 : strIncludes (strToLower query) "nfl" = false :=
        eq_false_of_ne_true (fun hc => h1 ((strIncludes_iff _ _).mp hc))
      have e2 : strIncludes (strToLower query) "football" = false :=
        eq_false_of_ne_true (fun hc => h2 ((strIncludes_iff _ _).mp hc))
      rw [e1, e2]
      rfl
    by_cases hb2 : (strIncludes (strToLower query) "nba" || strIncludes (strToLower query) "basketball") = true
    · simp [extractSportFromQuery, hb, hb2]
    · simp [extractSportFromQuery, hb, eq_false_of_ne_true hb2]
  · by_cases hb : (strIncludes (strToLower query) "nfl" || strIncludes (strToLower query) "football") = true
    · left; simp [extractSportFromQuery, hb]
    · right
      by_cases hb2 : (strIncludes (strToLower query) "nba" || strIncludes (strToLower query) "basketball") = true
      · simp [extractSportFromQuery, eq_false_of_ne_true hb, hb2]
      · simp [extractSportFromQuery, eq_false_of_ne_true hb, eq_false_of_ne_true hb2]
  · decide

/-- Witness for C2 at concrete queries: a `football` query maps to `nfl`,
a keyword-free query defaults to `nba`. -/
theorem extractSportFromQuery_spec_witness :
    extractSportFromQuery "watch Football!" = "nfl" ∧
    extractSportFromQuery "hello there" = "nba" := by
  constructor
  · exact (extractSportFromQuery_spec "watch Football!").1 (Or.inr ⟨6, by decide⟩)
  · refine (extractSportFromQuery_spec "hello there").2.1 ?_ ?_
    · intro h
      have hc := (strIncludes_iff (strToLower "hello there") "nfl").mpr h
      revert hc; decide
    · intro h
      have hc := (strIncludes_iff (strToLower "hello there") "football").mpr h
      revert hc; decide

/-- C10: The action's `validate` callback is a total Boolean predicate:
it returns `true` exactly when `validateSearchQuery` succeeds on the
message text, and on the empty query the `ValidationError` is caught and
`false` is returned. -/
theorem validateAction_total_iff :
    (∀ t : String, validateAction t = true ↔ ∃ q, validateSearchQuery t = Except.ok q) ∧
    validateAction "" = false := by
  constructor
  · intro t
    unfold validateAction
    cases h : validateSearchQuery t with
    | ok q => simp [h]
    | error e => simp [h]
  · decide

/-- C4: When the rate limiter denies a call, the handler short-circuits:
the trace shows no HTTP request and no memory-store contact, and the
result is exactly
`{ success := false, response := "Rate limit exceeded. Please try again later." }`. -/
theorem handler_rate_limited_short_circuits
    (config : IKBPluginConfig) (env : IKBEnv) (nowIso messageText : String)
    (h : env.rateLimitOk = false) :
    handler config env nowIso messageText =
      ({ success := false, response := "Rate limit exceeded. Please try again later." },
       { fetchArgs := none, memoryCalled := false, builtResults := [] }) := by
  simp [handler, h]

/-- Witness for C4 at a concrete denied environment. -/
theorem handler_rate_limited_short_circuits_witness :
    handler cfgGame envDeny "2025-01-01T00:00:00.000Z" "nba today" =
      ({ success := false, response := "Rate limit exceeded. Please try again later." },
       { fetchArgs := none, memoryCalled := false, builtResults := [] }) :=
  handler_rate_limited_short_circuits cfgGame envDeny "2025-01-01T00:00:00.000Z" "nba today" rfl

/-- C5: A fetch that succeeds with zero game records still yields
`success = true`, and the single built `SearchResult` carries the empty
string as its snippet. -/
theorem handler_zero_records_success
    (config : IKBPluginConfig) (env : IKBEnv) (nowIso messageText query : String)
    (resp : IKBSearchResponse)
    (hr : env.rateLimitOk = true)
    (hv : validateSearchQuery messageText = Except.ok query)
    (hf : env.fetch (extractSportFromQuery query) (extractDateFromQuery nowIso query) =
      Except.ok resp)
    (hd : resp.data = [])
    (hm : env.memorize (extractSportFromQuery query) (extractDateFromQuery nowIso query)
      resp.data = Except.ok ()) :
    (handler config env nowIso messageText).1.success = true ∧
    (handler config env nowIso messageText).2.builtResults.map (fun r => r.snippet) = [""] := by
  rw [hd] at hm
  simp [handler, hr, hv, hf, hd, hm]

/-- Witness for C5 at a concrete environment returning zero records. -/
theorem handler_zero_records_success_witness :
    (handler cfgGame envAllow "2025-01-01T00:00:00.000Z" "nba today").1.success = true ∧
    (handler cfgGame envAllow "2025-01-01T00:00:00.000Z" "nba today").2.builtResults.map
      (fun r => r.snippet) = [""] :=
  handler_zero_records_success cfgGame envAllow "2025-01-01T00:00:00.000Z" "nba today"
    "nba today" { data := [], metadata := { count := 0 } } rfl rfl rfl rfl rfl

/-- C6: Every error raised during handling is caught at the action
boundary and mapped by `handleApiError` into a uniform
`{ success := false, response := message }` result: a validation failure
returns it before any effect, a fetch failure returns it, and — because
the memory write is awaited — a memory-store failure returns it as well,
with the store having been contacted. -/
theorem handler_errors_uniform
    (config : IKBPluginConfig) (env1 env2 env3 : IKBEnv)
    (nowIso textBad textOk e1 e2 e3 query : String) (resp : IKBSearchResponse) :
    ((handleApiError e1).success = false ∧ (handleApiError e1).response = e1) ∧
    (env1.rateLimitOk = true → validateSearchQuery textBad = Except.error e1 →
      handler config env1 nowIso textBad = (handleApiError e1, {})) ∧
    (env2.rateLimitOk = true → validateSearchQuery textOk = Except.ok query →
      env2.fetch (extractSportFromQuery query) (extractDateFromQuery nowIso query) =
        Except.error e2 →
      (handler config env2 nowIso textOk).1 = handleApiError e2) ∧
    (env3.rateLimitOk = true → validateSearchQuery textOk = Except.ok query →
      env3.fetch (extractSportFromQuery query) (extractDateFromQuery nowIso query) =
        Except.ok resp →
      env3.memorize (extractSportFromQuery query) (extractDateFromQuery nowIso query)
        resp.data = Except.error e3 →
      (handler config env3 nowIso textOk).1 = handleApiError e3 ∧
      (handler config env3 nowIso textOk).2.memoryCalled = true) := by
  refine ⟨⟨rfl, rfl⟩, ?_, ?_, ?_⟩
  · intro hr hv
    simp [handler, hr, hv, handleApiError]
  · intro hr hv hf
    simp [handler, hr, hv, hf, handleApiError]
  · intro hr hv hf hm
    constructor <;> simp [handler, hr, hv, hf, hm, handleApiError]

/-- Witness for C6: a concrete empty query, a concrete failing fetch,
and a concrete failing memory write each surface as an error result. -/
theorem handler_errors_uniform_witness :
    handler cfgGame envAllow "2025-01-01T00:00:00.000Z" " " =
      (handleApiError "ValidationError: empty query", {}) ∧
    (handler cfgGame envFetchFail "2025-01-01T00:00:00.000Z" "nba").1 = handleApiError "boom" ∧
    (handler cfgGame envMemFail "2025-01-01T00:00:00.000Z" "nba").1 =
      handleApiError "store down" ∧
    (handler cfgGame envMemFail "2025-01-01T00:00:00.000Z" "nba").2.memoryCalled = true := by
  have h := handler_errors_uniform cfgGame envAllow envFetchFail envMemFail
    "2025-01-01T00:00:00.000Z" " " "nba" "ValidationError: empty query" "boom" "store down"
    "nba" { data := [], metadata := { count := 0 } }
  exact ⟨h.2.1 rfl rfl, h.2.2.1 rfl rfl rfl,
    (h.2.2.2 rfl rfl rfl rfl).1, (h.2.2.2 rfl rfl rfl rfl).2⟩

/-- C7 counterexample: with `filters.sport = "nfl"` and
`filters.date = "2024-01-01"` configured, a query naming neither a sport
keyword nor a date still makes the API call for `("nba", current date)`:
the configured filters are never consulted, refuting the claim that they
supply the default filter values. -/
theorem config_filters_ignored_counterexample :
    cfgFiltersNfl.filters = some { sport := "nfl", date := "2024-01-01" } ∧
    (handler cfgFiltersNfl envAllow "2025-03-04T05:06:07.000Z" "show me the game").2.fetchArgs =
      some ("nba", "2025-03-04") := by
  constructor
  · rfl
  · decide

/-- C7 amended: the configured `filters` field never influences the
handler — result and trace are identical under any two filter settings;
per-query defaults come from the extractors (current UTC date, `nba`)
instead. -/
theorem handler_independent_of_filters
    (config : IKBPluginConfig) (f1 f2 : Option IKBFilters) (env : IKBEnv)
    (nowIso messageText : String) :
    handler { config with filters := f1 } env nowIso messageText =
    handler { config with filters := f2 } env nowIso messageText := by
  cases config
  rfl

/-- C3: The players view renders exactly the players with participation
flag true, as a take-10 prefix of a descending-by-fantasy-points
(missing treated as zero) permutation of that filtered list, each block
rendered by `formatPlayer` and blocks joined by a blank line; and on a
record holding a missing-fantasy-points player before a 30-point player,
the 30-point player is rendered first. -/
theorem formatPlayerStats_spec :
    (∀ g : IKBGameData,
      ∃ L : List IKBPlayerStats,
        List.Perm L (g.players.filter (fun p => p.played)) ∧
        List.Pairwise (fun a b => fpKey b ≤ fpKey a) L ∧
        formatPlayerStats g = String.intercalate "\n\n" ((L.take 10).map formatPlayer) ∧
        (L.take 10).length ≤ 10) ∧
    formatPlayerStats gTwoPlayers = formatPlayer pHigh ++ "\n\n" ++ formatPlayer pMissing := by
  constructor
  · intro g
    refine ⟨sortByFantasyDesc (g.players.filter (fun p => p.played)), ?_, ?_, rfl, ?_⟩
    · exact List.perm_insertionSort _ _
    · haveI : IsTotal IKBPlayerStats (fun a b => fpKey b ≤ fpKey a) :=
        ⟨fun a b => le_total (fpKey b) (fpKey a)⟩
      haveI : IsTrans IKBPlayerStats (fun a b => fpKey b ≤ fpKey a) :=
        ⟨fun _ _ _ hab hbc => le_trans hbc hab⟩
      exact List.sorted_insertionSort _ _
    · exact List.length_take_le _ _
  · decide

/-- C8: The game view splits on newlines into exactly the five specified
lines — matchup, localized date, comma-joined quarter line, status,
venue — provided none of the rendered fields contains a newline itself;
and the quarter list `[{1,20,18},{2,15,20}]` renders exactly
`"Q1: 20-18, Q2: 15-20"`. -/
theorem formatGameSummary_five_lines
    (localize : String → String) (g : IKBGameData)
    (h1 : '\n' ∉ (g.game.awayTeam ++ " " ++ toString g.game.awayTeamScore ++ " @ " ++
      g.game.homeTeam ++ " " ++ toString g.game.homeTeamScore).data)
    (h2 : '\n' ∉ ("Date: " ++ localize g.game.dateTime).data)
    (h3 : '\n' ∉ ("Quarter Scores: " ++
      String.intercalate ", " (g.game.quarters.map formatQuarter)).data)
    (h4 : '\n' ∉ ("Status: " ++ g.game.status).data)
    (h5 : '\n' ∉ ("Stadium: " ++ g.game.stadium).data) :
    (formatGameSummary localize g).data.splitOn '\n' =
      [(g.game.awayTeam ++ " " ++ toString g.game.awayTeamScore ++ " @ " ++
        g.game.homeTeam ++ " " ++ toString g.game.homeTeamScore).data,
       ("Date: " ++ localize g.game.dateTime).data,
       ("Quarter Scores: " ++
        String.intercalate ", " (g.game.quarters.map formatQuarter)).data,
       ("Status: " ++ g.game.status).data,
       ("Stadium: " ++ g.game.stadium).data] ∧
    String.intercalate ", " ([⟨1, 20, 18⟩, ⟨2, 15, 20⟩].map formatQuarter) =
      "Q1: 20-18, Q2: 15-20" := by
  constructor
  · have hnl : ("\n" : String).data = ['\n'] := rfl
    have key : (formatGameSummary localize g).data =
        ['\n'].intercalate
          [(g.game.awayTeam ++ " " ++ toString g.game.awayTeamScore ++ " @ " ++
            g.game.homeTeam ++ " " ++ toString g.game.homeTeamScore).data,
           ("Date: " ++ localize g.game.dateTime).data,
           ("Quarter Scores: " ++
            String.intercalate ", " (g.game.quarters.map formatQuarter)).data,
           ("Status: " ++ g.game.status).data,
           ("Stadium: " ++ g.game.stadium).data] := by
      simp [formatGameSummary, List.intercalate, String.data_append, hnl]
    rw [key]
    refine List.splitOn_intercalate _ '\n' ?_ (by simp)
    intro l hl
    simp only [List.mem_cons, List.not_mem_nil, or_false] at hl
    rcases hl with rfl | rfl | rfl | rfl | rfl
    · exact h1
    · exact h2
    · exact h3
    · exact h4
    · exact h5
  · decide

/-- Witness for C8 at a concrete record and localization. -/
theorem formatGameSummary_five_lines_witness :
    (formatGameSummary (fun _ => "12/15/2024") gTwoPlayers).data.splitOn '\n' =
      ["AAA 100 @ BBB 98".data, "Date: 12/15/2024".data,
       "Quarter Scores: Q1: 20-18, Q2: 15-20".data, "Status: Final".data,
       "Stadium: Arena".data] := by
  have h := formatGameSummary_five_lines (fun _ => "12/15/2024") gTwoPlayers
    (by decide) (by decide) (by decide) (by decide) (by decide)
  exact h.1.trans (by decide)

/-- C9: The three view formatters are total on well-formed records (in
the embedding each is a total function to `String`), and on a record
with empty teams, players and quarters arrays the teams and players
views return the empty string while the game view renders its five lines
with an empty quarter list. -/
theorem formatters_total_on_empty (g : IKBGameData) (localize : String → String)
    (ht : g.teams = []) (hp : g.players = []) (hq : g.game.quarters = []) :
    formatTeamStats g = "" ∧
    formatPlayerStats g = "" ∧
    formatGameSummary localize g =
      g.game.awayTeam ++ " " ++ toString g.game.awayTeamScore ++ " @ " ++
        g.game.homeTeam ++ " " ++ toString g.game.homeTeamScore ++ "\n" ++
      "Date: " ++ localize g.game.dateTime ++ "\n" ++
      "Quarter Scores: " ++ "" ++ "\n" ++
      "Status: " ++ g.game.status ++ "\n" ++
      "Stadium: " ++ g.game.stadium := by
  refine ⟨?_, ?_, ?_⟩
  · unfold formatTeamStats
    rw [ht]
    rfl
  · unfold formatPlayerStats
    rw [hp]
    rfl
  · simp only [formatGameSummary]
    rw [hq]
    rfl

/-- Witness for C9 at the record with all-empty arrays. -/
theorem formatters_total_on_empty_witness :
    formatTeamStats gEmptyLists = "" ∧
    formatPlayerStats gEmptyLists = "" ∧
    formatGameSummary (fun s => s) gEmptyLists =
      "AAA 100 @ BBB 98\nDate: 2024-12-15T00:00:00Z\nQuarter Scores: \nStatus: Final\nStadium: Arena" := by
  have h := formatters_total_on_empty gEmptyLists (fun s => s) rfl rfl rfl
  exact ⟨h.1, h.2.1, h.2.2.trans (by decide)⟩
